import Mathlib

/-!
Verification development for the chatbot-backend retrieval pipeline.

Shallow embedding of the repository's JavaScript sources:
* `src/utils/vector.util.js` (dot product, magnitude, cosine similarity),
* `src/services` GeminiService `generateEmbedding` retry loop,
* `src/models/ChatHistory.js` (`addMessage`, `extractKeywords`, `getRecentContext`),
* the chat controller (`semanticSearch` and its helper methods).

Modelling conventions, stated once here:
* JavaScript floating point numbers are idealised as exact arithmetic: real
  numbers (`ℝ`) for the vector mathematics, where `Math.sqrt` forces reals and
  `NaN` is modelled by `none` in `Option ℝ`; exact rationals (`ℚ`) for the
  similarity scores and thresholds of the controller, whose logic only
  compares and copies scores.  The controller's similarity metric is taken as
  a parameter `cosSim : List ℚ → List ℚ → ℚ`, abstracting the float-valued
  cosine similarity; all controller theorems hold for every metric.
* Every generative-model call (`generateText`, `detectLanguage`,
  `translateResponse`, `refineQuery`, the embedding call) is an external
  oracle; its result for this request is a field of the `Oracles` structure.
  `none` stands for a thrown error or a null result, mapped to the catch /
  falsy branch of the call site.
* JS strings are lists of characters; `.toLowerCase`, `.trim`, `.split` and
  the regex operations of the source are implemented below on `List Char`.
  The `.*` gaps of the restricted-topic regexes are modelled as "arbitrary
  intervening text" (the source's `.` does not match a newline; none of the
  verified properties depends on that corner).
* Database reads are the `corpus : List QADoc` argument; the per-session
  Mongo document is the `SessionState` structure.
-/

/-! ## JavaScript string primitives on `List Char` -/

/-- Characters dropped from both ends by `String.prototype.trim`. -/
def trimChars (cs : List Char) : List Char :=
  ((cs.dropWhile Char.isWhitespace).reverse.dropWhile Char.isWhitespace).reverse

/-- JS `s.trim()`. -/
def jsTrim (s : String) : String := ⟨trimChars s.data⟩

/-- JS `s.toLowerCase()` (ASCII, which is all the sources use). -/
def jsToLower (s : String) : String := ⟨s.data.map Char.toLower⟩

/-- Split at every single character satisfying `p`, keeping empty pieces —
the semantics of JS `split` with a one-character separator. -/
def splitEvery (p : Char → Bool) : List Char → List (List Char)
  | [] => [[]]
  | c :: rest =>
    let r := splitEvery p rest
    if p c then [] :: r
    else
      match r with
      | [] => [[c]]
      | t :: ts => (c :: t) :: ts

/-- JS `split` on a `+`-quantified character class (`/\s+/`, `/\W+/`):
maximal runs of separator characters split the string, which keeps a leading
and a trailing empty piece but no internal ones. -/
def jsSplitRuns (p : Char → Bool) (cs : List Char) : List (List Char) :=
  match splitEvery p cs with
  | [] => [[]]
  | x :: xs =>
    match xs.reverse with
    | [] => [x]
    | lastTok :: midRev => x :: ((midRev.reverse).filter (fun t => t ≠ [])) ++ [lastTok]

/-- JS `s.split(/\s+/)`. -/
def jsSplitWS (s : String) : List String :=
  (jsSplitRuns Char.isWhitespace s.data).map (fun cs => ⟨cs⟩)

/-- A JS word character for `/\W/`: ASCII letters, digits and underscore. -/
def isWordChar (c : Char) : Bool := c.isAlphanum || c = '_'

/-- JS `s.split(/\W+/)`. -/
def jsSplitNonWord (s : String) : List String :=
  (jsSplitRuns (fun c => !isWordChar c) s.data).map (fun cs => ⟨cs⟩)

/-- JS `s.split('\n')`. -/
def splitOnNewline (s : String) : List String :=
  (splitEvery (fun c => c = '\n') s.data).map (fun cs => ⟨cs⟩)

/-- Remainder of `s` after the first occurrence of `pat`; `none` when `pat`
does not occur.  This is the search step of an unanchored regex literal. -/
def dropAfterFirst (pat : List Char) : List Char → Option (List Char)
  | [] => if pat.isPrefixOf ([] : List Char) then some [] else none
  | c :: t =>
    if pat.isPrefixOf (c :: t) then some ((c :: t).drop pat.length)
    else dropAfterFirst pat t

/-- JS `s.includes(sub)`. -/
def containsSub (s sub : List Char) : Bool := (dropAfterFirst sub s).isSome

/-- Matching of one restricted-topic regex branch `lit₁.*lit₂.*…`: the
literals occur in order, with arbitrary text in the gaps. -/
def containsInOrder (s : List Char) : List (List Char) → Bool
  | [] => true
  | pat :: rest =>
    match dropAfterFirst pat s with
    | some s' => containsInOrder s' rest
    | none => false

/-- Keep the first occurrence of each element, in order — the behaviour of
`[...new Set(list)]` in JS. -/
def dedupFirstAux : List String → List String → List String
  | [], _ => []
  | a :: l, seen =>
    if a ∈ seen then dedupFirstAux l seen
    else a :: dedupFirstAux l (a :: seen)

/-- `[...new Set(list)]`. -/
def dedupFirst (l : List String) : List String := dedupFirstAux l []

/-! ## `src/utils/vector.util.js`

JS numbers idealised as `ℝ`; `NaN` is `none` in `jsNum := Option ℝ`.
Reading past the end of an array yields `undefined`, which any arithmetic
turns into `NaN`, so the out-of-bounds read is modelled as `none` directly. -/

/-- A JS number that may be `NaN`. -/
abbrev jsNum : Type := Option ℝ

/-- JS `+` with `NaN` propagation. -/
def jsAdd : jsNum → jsNum → jsNum
  | some x, some y => some (x + y)
  | _, _ => none

/-- JS `*` with `NaN` propagation (also `undefined * x = NaN`). -/
def jsMul : jsNum → jsNum → jsNum
  | some x, some y => some (x * y)
  | _, _ => none

/-- JS `/` with `NaN` propagation.  A zero divisor is mapped to `none`; in
the one call site below that case is unreachable because the zero-magnitude
guard has already returned. -/
noncomputable def jsDiv : jsNum → jsNum → jsNum
  | some x, some y => if y = 0 then none else some (x / y)
  | _, _ => none

/-- `vec[i]`: `undefined` past the end, modelled as `none`. -/
def jsGetNum (v : List ℝ) (i : Nat) : jsNum :=
  if h : i < v.length then some (v.get ⟨i, h⟩) else none

/-- The loop of `dotProduct(vecA, vecB)`: `for i < vecA.length:
product += vecA[i] * vecB[i]`, starting from `0`. -/
def dotProduct (vecA vecB : List ℝ) : jsNum :=
  (List.range vecA.length).foldl
    (fun product i => jsAdd product (jsMul (jsGetNum vecA i) (jsGetNum vecB i))) (some 0)

/-- The loop of `magnitude(vec)`: sum of squares of the entries. -/
def sumSq (v : List ℝ) : ℝ := v.foldl (fun sum x => sum + x * x) 0

/-- `magnitude(vec) = Math.sqrt(sum)`; the argument is a sum of squares, so
the square root is the real one and never `NaN`. -/
noncomputable def magnitude (v : List ℝ) : ℝ := Real.sqrt (sumSq v)

/-- The mathematical dot product truncated at `vecA`'s length, used to state
what the loop computes when it stays in bounds. -/
noncomputable def dotR (vecA vecB : List ℝ) : ℝ :=
  ∑ i ∈ Finset.range vecA.length, vecA.getD i 0 * vecB.getD i 0

/-- `cosineSimilarity(vecA, vecB)` from `vector.util.js`.  A `none` argument
is a JS `null`/`undefined` vector (the `!vecA || !vecB` guard). -/
noncomputable def cosineSimilarity (vecA vecB : Option (List ℝ)) : jsNum :=
  match vecA, vecB with
  | none, _ => some 0
  | _, none => some 0
  | some va, some vb =>
    if va.length = 0 ∨ vb.length = 0 then some 0
    else
      let dot := dotProduct va vb
      let magA := magnitude va
      let magB := magnitude vb
      if magA = 0 ∨ magB = 0 then some 0
      else jsDiv dot (some (magA * magB))

/-! ## GeminiService `generateEmbedding` retry loop

`for (let i = 0; i < MAX_RETRIES; i++) { try { return await embed } catch
{ if (i === MAX_RETRIES - 1) return null; await sleep(RETRY_DELAY_MS) } }`.
`embedAttempt i` is the outcome of the `i`-th `embedContent` call (`none` =
throw).  The run records the value returned, the number of attempts made and
the list of delays slept. -/

def MAX_RETRIES : Nat := 3

def RETRY_DELAY_MS : Nat := 1000

/-- Observable outcome of one `generateEmbedding` call. -/
structure EmbedRun where
  result : Option (List ℚ)
  attempts : Nat
  delays : List Nat

/-- The retry loop, at attempt index `i` with `fuel = MAX_RETRIES - i`
iterations left; `fuel = 1` means `i` is the last attempt. -/
def genEmbedLoop (embedAttempt : Nat → Option (List ℚ)) : Nat → Nat → EmbedRun
  | _, 0 => ⟨none, 0, []⟩
  | i, fuel + 1 =>
    match embedAttempt i with
    | some e => ⟨some e, 1, []⟩
    | none =>
      if fuel = 0 then ⟨none, 1, []⟩
      else
        let r := genEmbedLoop embedAttempt (i + 1) fuel
        ⟨r.result, r.attempts + 1, RETRY_DELAY_MS :: r.delays⟩

/-- `GeminiService.generateEmbedding` for one given sequence of attempt
outcomes. -/
def generateEmbedding (embedAttempt : Nat → Option (List ℚ)) : EmbedRun :=
  genEmbedLoop embedAttempt 0 MAX_RETRIES

/-! ## `src/models/ChatHistory.js`

The schema constrains `confidence` to the enum `high | medium | low`
(default `medium`), so the `|| 0.6` fallback of `addMessage` is never taken
and the tier is modelled as an inductive type. -/

/-- The `confidence` enum of `chatMessageSchema`. -/
inductive Confidence where
  | high
  | medium
  | low
deriving DecidableEq

/-- The per-message tier weights `{ high: 1, medium: 0.6, low: 0.3 }`. -/
def confidenceScores : Confidence → ℚ
  | Confidence.high => 1
  | Confidence.medium => 3/5
  | Confidence.low => 3/10

/-- One entry of `messages` (the fields the modelled logic reads). -/
structure ChatMsg where
  mquery : String
  mresponse : String
  mconfidence : Confidence
deriving DecidableEq

/-- The session document: message log plus the derived aggregates the
controller and `addMessage` maintain. -/
structure SessionState where
  messages : List ChatMsg
  totalQueries : Nat
  avgConfidence : ℚ
  recentTopics : List String
deriving DecidableEq

/-- The document created by `getOrCreateChatHistory` for a fresh session. -/
def initSession : SessionState := ⟨[], 0, 0, []⟩

/-- `extractKeywords(text)`: lowercase, split on `/\W+/`, keep words longer
than 2 characters that are not stop words, first 5. -/
def chStopWords : List String :=
  ["the", "is", "at", "which", "on", "what", "who", "how", "when", "where", "why"]

def extractKeywords (text : String) : List String :=
  ((jsSplitNonWord (jsToLower text)).filter
    (fun word => decide (2 < word.length) && !chStopWords.contains word)).take 5

/-- `addMessage(messageData)`: push the message, bump `totalQueries`,
recompute `avgConfidence` over all messages, and merge the new keywords into
`recentTopics` (`[...new Set([...keywords, ...recentTopics])].slice(0, 10)`). -/
def addMessage (s : SessionState) (m : ChatMsg) : SessionState :=
  let messages := s.messages ++ [m]
  { messages := messages
    totalQueries := s.totalQueries + 1
    avgConfidence :=
      (messages.map (fun msg => confidenceScores msg.mconfidence)).sum / (messages.length : ℚ)
    recentTopics := (dedupFirst (extractKeywords m.mquery ++ s.recentTopics)).take 10 }

/-- `getRecentContext(limit)`: the last `limit` messages (`slice(-limit)`),
projected to the fields the context builder reads. -/
def getRecentContext (s : SessionState) (limit : Nat) : List ChatMsg :=
  s.messages.drop (s.messages.length - limit)

/-! ## The chat controller

Embedding of the `ChatController` of the chat-history-aware controller
version (the one `semanticSearch` with greeting / restricted / contact /
direct-match stages, synthesis, enrichment and suggestions). -/

/-- A Q&A pair as read from Mongo; an absent embedding is `[]` (the corpus
filter `p.embedding && p.embedding.length > 0` treats both alike). -/
structure QAPair where
  question : String
  answer : String
  embedding : List ℚ

/-- One `ClientQA` document. -/
structure QADoc where
  status : String
  pairs : List QAPair

/-- One ranked comparison `{question, answer, score}`. -/
structure Comparison where
  question : String
  answer : String
  score : ℚ
deriving DecidableEq

/-- One formatted suggestion (`id` is `sid` here). -/
structure Suggestion where
  sid : String
  question : String
  originalQuestion : String
  score : ℚ
  relevanceReason : String

/-- Outcomes of the generative calls made while serving one request; `none`
is a thrown error or null result (the call site's catch / falsy branch). -/
structure Oracles where
  isGreetingResult : Bool
  greetingResponse : String
  contactIsContact : Bool
  contactTypeStr : String
  contactFound : Option (String × String)
  contextGen : Option String
  refine : String → String
  detectedLanguage : String
  queryEmbedding : Option (List ℚ)
  intentAnalysis : Option String
  synthesis : Option String
  template : Option String
  extraction : Option String
  completeness : Option ℚ
  enrich : Option String
  followUps : Option String
  translate : String → String

/-- The JSON body (plus HTTP status) sent by `res`; absent fields are
`none`. -/
structure ChatResponse where
  status : Nat := 200
  message : Option String := none
  answer : Option String := none
  score : Option ℚ := none
  confidence : Option String := none
  rtype : Option String := none
  language : Option String := none
  suggestions : Option (List Suggestion) := none
  matchedQuestion : Option String := none
  completenessScore : Option ℚ := none
  followUpQuestions : Option (List String) := none
  sourceCount : Option Nat := none
  metadataFields : Option (String × String × String) := none

/-- The constructor's `restrictedPatterns` table: each regex `/i` literal is
an alternation of branches, each branch a `.*`-separated list of literals. -/
def restrictedPatterns : List (List (List String)) :=
  [ [["write", "code"], ["code", "for"], ["programming"], ["javascript"],
     ["python"], ["html"], ["css"], ["sql"]],
    [["calculate"], ["math"], ["mathematics"], ["solve", "equation"],
     ["what", "is", "+"], ["*"], ["/"], ["-"]],
    [["weather"], ["time"], ["date"], ["current", "time"], ["what", "time"]],
    [["translate"], ["translation"], ["convert", "language"]],
    [["recipe"], ["cooking"], ["how", "to", "cook"], ["ingredients"]],
    [["medical", "advice"], ["health"], ["symptoms"], ["disease"], ["medicine"]],
    [["legal", "advice"], ["law"], ["lawsuit"], ["attorney"]],
    [["investment"], ["stock"], ["crypto"], ["bitcoin"], ["financial", "advice"]],
    [["write", "essay"], ["homework"], ["assignment"], ["thesis"]],
    [["personal", "opinion"], ["what", "do", "you", "think"], ["your", "opinion"]] ]

/-- `isRestrictedQuery(query)`:
`this.restrictedPatterns.some(pattern => pattern.test(query))`. -/
def isRestrictedQuery (query : String) : Bool :=
  let q := query.data.map Char.toLower
  restrictedPatterns.any (fun branches =>
    branches.any (fun seq => containsInOrder q (seq.map String.data)))

/-- `evaluateMatchConfidence(score)`: note the strict `score > 0.7`. -/
structure MatchEvaluation where
  level : String
  description : String
  shouldReturnAnswer : Bool
  includeConfidenceNote : Bool

def evaluateMatchConfidence (score : ℚ) : MatchEvaluation :=
  if 7/10 < score then ⟨"high", "High confidence match", true, false⟩
  else ⟨"low", "Low confidence match", false, false⟩

/-- `generateRelevanceReason(score)`. -/
def generateRelevanceReason (score : ℚ) : String :=
  if 1/2 ≤ score then "Closely related topic"
  else if 2/5 ≤ score then "Somewhat related"
  else "Potentially relevant"

/-- `parseFloat(score.toFixed(4))`: round to 4 decimal places, ties toward
positive infinity, as `Number.prototype.toFixed` specifies. -/
def round4 (q : ℚ) : ℚ := (Int.floor (q * 10000 + 1/2) : ℚ) / 10000

/-- The loop body of `formatSuggestions`, with the loop index `i`; the
question is translated when the user language is not English. -/
def formatSuggestionsGo (translateQ : String → String) (lang : String) :
    Nat → List Comparison → List Suggestion
  | _, [] => []
  | i, m :: rest =>
    { sid := "suggestion_" ++ toString (i + 1)
      question := if lang ≠ "en" then translateQ m.question else m.question
      originalQuestion := m.question
      score := round4 m.score
      relevanceReason := generateRelevanceReason m.score } ::
      formatSuggestionsGo translateQ lang (i + 1) rest

/-- `formatSuggestions(matches, originalQuery, userLanguage)`. -/
def formatSuggestions (translateQ : String → String) (lang : String)
    (matchList : List Comparison) : List Suggestion :=
  formatSuggestionsGo translateQ lang 0 matchList

/-- The word tables of `filterKeywords`. -/
def whWords : List String :=
  ["who", "what", "when", "where", "why", "how", "which", "whom", "whose"]

def helpingVerbs : List String :=
  ["is", "am", "are", "was", "were", "be", "being", "been", "do", "does", "did",
   "has", "have", "had", "may", "might", "must", "can", "could", "shall",
   "should", "will", "would"]

/-- `filterKeywords(query)`: drop WH-words and helping verbs, rejoin. -/
def filterKeywords (query : String) : String :=
  let words := jsSplitWS (jsToLower query)
  let filteredWords := words.filter (fun word =>
    !whWords.contains word && !helpingVerbs.contains word)
  String.intercalate " " filteredWords

/-- `isDirectQuestionMatch(query, clientId)`: some stored question equals,
contains, or is contained in the query, case-insensitively; the lookup is
over all of the client's documents regardless of status. -/
def isDirectQuestionMatch (query : String) (corpus : List QADoc) : Bool :=
  corpus.any (fun doc => doc.pairs.any (fun qaPair =>
    let questionLower := trimChars (qaPair.question.data.map Char.toLower)
    let queryLower := trimChars (query.data.map Char.toLower)
    decide (questionLower = queryLower) || containsSub questionLower queryLower ||
      containsSub queryLower questionLower))

/-- Word-sharing validation inside `buildContextAwareQuery`: the enhanced
query must contain some word of the original longer than 3 characters. -/
def hasCommonWords (originalQuery enhancedQuery : String) : Bool :=
  let originalWords := jsSplitWS (jsToLower originalQuery)
  let enhancedWords := jsSplitWS (jsToLower enhancedQuery)
  originalWords.any (fun word => decide (3 < word.length) && enhancedWords.contains word)

/-- `buildContextAwareQuery(originalQuery, chatHistory)`; `contextGen` is the
generative rewrite (`none` = throw or null). -/
def buildContextAwareQuery (originalQuery : String) (session : SessionState)
    (contextGen : Option String) : String :=
  if (getRecentContext session 3).length = 0 then originalQuery
  else
    match contextGen with
    | none => originalQuery
    | some enhancedQuery =>
      if enhancedQuery ≠ "" ∧ jsTrim enhancedQuery ≠ jsTrim originalQuery then
        if hasCommonWords originalQuery enhancedQuery then jsTrim enhancedQuery
        else originalQuery
      else originalQuery

/-- The repeated `.replace(/\*+/g,'').replace(/•/g,'').replace(/\*\*/g,'')
.replace(/#+/g,'').replace(/\s+/g,' ').trim()` chain. -/
def stripSymbols (cs : List Char) : List Char :=
  cs.filter (fun c => !(c = '*' || c = '•' || c = '#'))

def collapseWSAux : Bool → List Char → List Char
  | _, [] => []
  | prevWs, c :: rest =>
    if c.isWhitespace then
      if prevWs then collapseWSAux true rest
      else ' ' :: collapseWSAux true rest
    else c :: collapseWSAux false rest

def cleanFormatting (s : String) : String :=
  ⟨trimChars (collapseWSAux false (stripSymbols s.data))⟩

/-- Length of a leading `Q\d+:` label (case-insensitive), if present. -/
def qnumLabelLen : List Char → Option Nat
  | [] => none
  | c :: rest =>
    if c = 'q' ∨ c = 'Q' then
      let ds := rest.takeWhile Char.isDigit
      if 0 < ds.length then
        match rest.drop ds.length with
        | ':' :: _ => some (1 + ds.length + 1)
        | _ => none
      else none
    else none

/-- `rawAnswer.replace(/^(Q\d+:|Question:)\s*/i, '')`. -/
def stripQuestionLabel (s : String) : String :=
  let cs := s.data
  match qnumLabelLen cs with
  | some n => ⟨(cs.drop n).dropWhile Char.isWhitespace⟩
  | none =>
    if (cs.take 9).map Char.toLower = "question:".data then
      ⟨(cs.drop 9).dropWhile Char.isWhitespace⟩
    else s

/-- `applyDynamicTemplate(query, answer)`; `templateGen` is the generative
reformatting (`none` = throw). -/
def applyDynamicTemplate (answer : String) (templateGen : Option String) : String :=
  match templateGen with
  | none => answer
  | some t =>
    if t ≠ "" ∧ 0 < (jsTrim t).length then
      let formattedAnswer := cleanFormatting (jsTrim t)
      if 0 < formattedAnswer.length then formattedAnswer else answer
    else answer

/-- `q.trim().replace(/^\d+\.\s*/, '')`. -/
def stripOrdinal (q : String) : String :=
  let cs := q.data
  let ds := cs.takeWhile Char.isDigit
  if 0 < ds.length then
    match cs.drop ds.length with
    | '.' :: rest => ⟨rest.dropWhile Char.isWhitespace⟩
    | _ => q
  else q

/-- `.replace(/^-\s*/, '')`. -/
def stripDash (q : String) : String :=
  match q.data with
  | '-' :: rest => ⟨rest.dropWhile Char.isWhitespace⟩
  | _ => q

/-- `generateFollowUpQuestions(query, answer)`: split lines, keep non-blank,
first 3, strip ordinal and dash markers; `[]` on error or null. -/
def generateFollowUpQuestions (followUpGen : Option String) : List String :=
  match followUpGen with
  | none => []
  | some r =>
    if r ≠ "" then
      (((splitOnNewline r).filter (fun q => jsTrim q ≠ "")).take 3).map
        (fun q => stripDash (stripOrdinal (jsTrim q)))
    else []

/-- `checkAnswerCompleteness(query, answer)`: the parsed score when it lies
in `[0, 1]`, else `1.0`; `parsed = none` is a throw or a `NaN` parse. -/
def checkAnswerCompleteness (parsed : Option ℚ) : ℚ :=
  match parsed with
  | some score => if 0 ≤ score ∧ score ≤ 1 then score else 1
  | none => 1

/-- `enrichAnswer(query, currentAnswer)`: accept the generative enrichment
only when its trimmed text is strictly longer than the current answer;
`null` otherwise. -/
def enrichAnswer (currentAnswer : String) (enrichGen : Option String) : Option String :=
  match enrichGen with
  | none => none
  | some r =>
    if r ≠ "" ∧ currentAnswer.length < (jsTrim r).length then
      some (cleanFormatting (jsTrim r))
    else none

/-- The completeness/enrichment block of the answer path: starts from the
translated answer; when the completeness score is below `0.8`, an accepted
enrichment replaces it.  Returns `(completenessScore, enrichedAnswer)`. -/
def enrichmentStage (finalAnswer translatedAnswer : String)
    (completenessGen : Option ℚ) (enrichGen : Option String) : ℚ × String :=
  let completenessScore := checkAnswerCompleteness completenessGen
  if completenessScore < 4/5 then
    match enrichAnswer finalAnswer enrichGen with
    | some newEnrichedAnswer => (completenessScore, newEnrichedAnswer)
    | none => (completenessScore, translatedAnswer)
  else (completenessScore, translatedAnswer)

/-- Descending order on scores; `scoreGE a b` holds when `a`'s score is at
least `b`'s, the order produced by `sort((a, b) => b.score - a.score)`. -/
def scoreGE (a b : Comparison) : Prop := b.score ≤ a.score

instance : DecidableRel scoreGE := fun a b => inferInstanceAs (Decidable (b.score ≤ a.score))

instance : IsTotal Comparison scoreGE := ⟨fun a b => le_total b.score a.score⟩

instance : IsTrans Comparison scoreGE := ⟨fun _ _ _ h1 h2 => le_trans h2 h1⟩

/-- `comparisons.sort((a, b) => b.score - a.score)`: a stable descending
sort; insertion sort with `scoreGE` places earlier elements before
equal-score later ones, which is exactly the stable result. -/
def sortByScoreDesc (comparisons : List Comparison) : List Comparison :=
  List.insertionSort scoreGE comparisons

/-- Parsed form of `intentResult.trim().match(/^(SPECIFIC|GENERAL)(?::(\d+))?/)`. -/
inductive IntentParse where
  | specific (idx : Int)
  | general
deriving DecidableEq

/-- `parseInt` on a digit string. -/
def digitsToNat (ds : List Char) : Nat :=
  ds.foldl (fun n c => 10 * n + (c.toNat - '0'.toNat)) 0

/-- The optional `:(\d+)` group after `SPECIFIC`: `parseInt(m[2]) - 1` when
the group matches, else index 0. -/
def specificIndexOf (rest : List Char) : Int :=
  match rest with
  | ':' :: cs =>
    let ds := cs.takeWhile Char.isDigit
    if 0 < ds.length then (digitsToNat ds : Int) - 1 else 0
  | _ => 0

/-- Parse of the intent-analysis response; `none` when the generative call
threw or the regex did not match. -/
def parseIntentResult (intentGen : Option String) : Option IntentParse :=
  match intentGen with
  | none => none
  | some s =>
    let cs := (jsTrim s).data
    if ("SPECIFIC".data).isPrefixOf cs then
      some (IntentParse.specific (specificIndexOf (cs.drop 8)))
    else if ("GENERAL".data).isPrefixOf cs then some IntentParse.general
    else none

/-- `list[i]` with a JS index that may be negative or out of range. -/
def jsIndex (l : List Comparison) (i : Int) : Option Comparison :=
  if 0 ≤ i then l[i.toNat]? else none

/-- The fixed response texts of the controller. -/
def restrictedRefusalText : String :=
  "I'm sorry, but I can only help with questions related to our knowledge base. I cannot assist with general questions like coding, math calculations, or other topics outside my scope. Please ask me something related to the information in our uploaded documents."

def contactNotFoundText : String :=
  "I'm sorry, I couldn't find any contact information in our knowledge base."

def noDataText : String :=
  "I'm sorry, but there are no Q&A pairs available for this client. Please upload some Q&A data first."

def noAnswerText : String :=
  "I couldn't find a direct answer to your question, but here are some related topics that might help:"

/-- `const baseSimilarityThreshold = 0.7`. -/
def baseSimilarityThreshold : ℚ := 7/10

/-- The corpus rows that participate in retrieval: completed documents'
pairs carrying a non-empty embedding. -/
def completedPairs (corpus : List QADoc) : List QAPair :=
  (corpus.filter (fun doc => doc.status = "completed")).flatMap
    (fun doc => doc.pairs.filter (fun p => p.embedding.length ≠ 0))

/-- `allPairs.map(pair => ({question, answer, score: cosineSimilarity(...)}))`. -/
def comparisonsOf (cosSim : List ℚ → List ℚ → ℚ) (queryEmbedding : List ℚ)
    (pairs : List QAPair) : List Comparison :=
  pairs.map (fun p => ⟨p.question, p.answer, cosSim queryEmbedding p.embedding⟩)

/-- The refined query: unchanged for a direct question match, otherwise the
context-aware query passed through `refineQuery`. -/
def refinedQueryOf (query : String) (session : SessionState) (corpus : List QADoc)
    (o : Oracles) : String :=
  if isDirectQuestionMatch query corpus then query
  else o.refine (buildContextAwareQuery query session o.contextGen)

/-- `filteredKeywords` as logged and echoed in the suggestions metadata. -/
def filteredKeywordsOf (query : String) (session : SessionState) (corpus : List QADoc)
    (o : Oracles) : String :=
  if isDirectQuestionMatch query corpus then filterKeywords query
  else filterKeywords (refinedQueryOf query session corpus o)

/-- The `finalAnswer` of the single-answer tail: strip the question label,
clean formatting, apply the dynamic template, and accept a direct extraction
only when non-empty and strictly shorter than the cleaned answer. -/
def singleFinalAnswer (bestMatch : Comparison) (o : Oracles) : String :=
  let cleanedAnswer := jsTrim (stripQuestionLabel bestMatch.answer)
  let finalCleanedAnswer := cleanFormatting cleanedAnswer
  let afterTemplate := applyDynamicTemplate finalCleanedAnswer o.template
  match o.extraction with
  | some directAnswer =>
    if directAnswer ≠ "" ∧ 0 < (jsTrim directAnswer).length ∧
        (jsTrim directAnswer).length < cleanedAnswer.length then
      jsTrim directAnswer
    else afterTemplate
  | none => afterTemplate

/-- The single-answer tail of the answer path: compute the final answer,
translate it, generate follow-ups, then run the completeness/enrichment
block. -/
def singleAnswerPath (lang : String) (bestMatch : Comparison) (confLevel : String)
    (o : Oracles) : ChatResponse :=
  let finalAnswer := singleFinalAnswer bestMatch o
  let translatedAnswer := o.translate finalAnswer
  let followUpQuestions := generateFollowUpQuestions o.followUps
  let ce := enrichmentStage finalAnswer translatedAnswer o.completeness o.enrich
  { answer := some ce.2
    score := some bestMatch.score
    confidence := some confLevel
    rtype := some "answer"
    language := some lang
    matchedQuestion := some bestMatch.question
    completenessScore := some ce.1
    followUpQuestions := if 0 < followUpQuestions.length then some followUpQuestions else none }

/-- The answer path (`bestMatch.score >= threshold`): specific-vs-general
intent disambiguation over the matches scoring at least `0.6`, optional
synthesis for general intent, otherwise the single-answer tail. -/
def answerPath (lang : String) (topMatches : List Comparison) (bestMatch0 : Comparison)
    (confLevel : String) (o : Oracles) : ChatResponse :=
  let relevantMatches := (topMatches.filter (fun m => (3 : ℚ)/5 ≤ m.score)).take 3
  let intent := if 1 < relevantMatches.length then parseIntentResult o.intentAnalysis else none
  let specificMatch : Option Comparison :=
    match intent with
    | some (IntentParse.specific idx) => jsIndex relevantMatches idx
    | _ => none
  let shouldSynthesize : Bool :=
    match intent with
    | some IntentParse.general => true
    | _ => false
  let bestMatch := match specificMatch with | some m => m | none => bestMatch0
  if shouldSynthesize ∧ specificMatch = none then
    match o.synthesis with
    | some synthesizedAnswer =>
      if synthesizedAnswer ≠ "" ∧ 0 < (jsTrim synthesizedAnswer).length then
        let finalAnswer := cleanFormatting (jsTrim synthesizedAnswer)
        { answer := some (o.translate finalAnswer)
          score := some bestMatch.score
          confidence := some "high"
          rtype := some "synthesized_answer"
          language := some lang
          sourceCount := some relevantMatches.length }
      else singleAnswerPath lang bestMatch confLevel o
    | none => singleAnswerPath lang bestMatch confLevel o
  else singleAnswerPath lang bestMatch confLevel o

/-- The suggestion path: format the top matches, translate the preamble for
non-English users, echo the query metadata; score is the best match's score,
or 0 with no best match. -/
def suggestionPath (query refinedQuery filteredKeywords lang : String)
    (topMatches : List Comparison) (bestMatch : Option Comparison) (o : Oracles) :
    ChatResponse :=
  let suggestions := formatSuggestions o.translate lang topMatches
  let noAnswerMessage := if lang ≠ "en" then o.translate noAnswerText else noAnswerText
  { answer := some noAnswerMessage
    suggestions := some suggestions
    score := some (match bestMatch with | some b => b.score | none => 0)
    confidence := some "low"
    rtype := some "suggestions"
    language := some lang
    metadataFields := some (query, refinedQuery, filteredKeywords) }

/-- `semanticSearch(req, res)` of the chat-history-aware controller:
validation, greeting short-circuit, restricted-topic refusal, contact
intent, direct-match / context-aware refinement, embedding, corpus read,
ranking, and the threshold decision between answer and suggestions. -/
def semanticSearch (query clientId sessionId : String) (session : SessionState)
    (corpus : List QADoc) (cosSim : List ℚ → List ℚ → ℚ) (o : Oracles) : ChatResponse :=
  if query = "" ∨ clientId = "" ∨ sessionId = "" then
    { status := 400, message := some "Query, Client ID, and Session ID are required." }
  else if o.isGreetingResult then
    { answer := some o.greetingResponse
      score := some 1
      confidence := some "high"
      rtype := some "greeting"
      language := some o.detectedLanguage }
  else if isRestrictedQuery query then
    { answer := some restrictedRefusalText, score := some 0, rtype := some "restricted" }
  else if o.contactIsContact then
    match o.contactFound with
    | some found =>
      { answer := some (o.translate found.2)
        score := some 1
        confidence := some "high"
        rtype := some o.contactTypeStr
        language := some o.detectedLanguage }
    | none =>
      { answer := some contactNotFoundText, score := some 0, rtype := some "no_data" }
  else
    match o.queryEmbedding with
    | none => { status := 500, message := some "Failed to generate query embedding." }
    | some queryEmbedding =>
      let allPairs := completedPairs corpus
      if allPairs.length = 0 then
        { answer := some noDataText, score := some 0, rtype := some "no_data" }
      else
        let comparisons := comparisonsOf cosSim queryEmbedding allPairs
        let topMatches := (sortByScoreDesc comparisons).take 5
        match topMatches.head? with
        | none =>
          suggestionPath query (refinedQueryOf query session corpus o)
            (filteredKeywordsOf query session corpus o) o.detectedLanguage
            topMatches none o
        | some bestMatch =>
          if baseSimilarityThreshold ≤ bestMatch.score then
            answerPath o.detectedLanguage topMatches bestMatch
              (evaluateMatchConfidence bestMatch.score).level o
          else
            suggestionPath query (refinedQueryOf query session corpus o)
              (filteredKeywordsOf query session corpus o) o.detectedLanguage
              topMatches (some bestMatch) o

/-- A concrete oracle assignment for concrete runs: no greeting, no contact
intent, every generative enhancement unavailable, English language, identity
translation, and a successfully embedded query. -/
def oracleStub : Oracles :=
  { isGreetingResult := false
    greetingResponse := ""
    contactIsContact := false
    contactTypeStr := ""
    contactFound := none
    contextGen := none
    refine := fun s => s
    detectedLanguage := "en"
    queryEmbedding := some [1]
    intentAnalysis := none
    synthesis := none
    template := none
    extraction := none
    completeness := none
    enrich := none
    followUps := none
    translate := fun s => s }

/-- A one-document, one-pair completed corpus for concrete runs. -/
def demoCorpus : List QADoc :=
  [⟨"completed", [⟨"What are your business hours?", "9 to 5 Mon-Fri", [1]⟩]⟩]

/-! ## Theorems -/

/-- C9: on the answer path the enrichment pass runs only when the
completeness score is strictly below 0.8, its output replaces the answer
only when the enriched text's trimmed length strictly exceeds the original
(pre-translation) answer's length, and otherwise the pre-enrichment
(translated) answer is returned unchanged; the single-answer response emits
exactly the enrichment block's answer and completeness score. -/
theorem enrichment_gating (finalAnswer translatedAnswer : String)
    (c : Option ℚ) (g : Option String) :
    (4/5 ≤ checkAnswerCompleteness c →
      ∀ g', enrichmentStage finalAnswer translatedAnswer c g' =
        (checkAnswerCompleteness c, translatedAnswer))
    ∧ (checkAnswerCompleteness c < 4/5 → g = none →
        enrichmentStage finalAnswer translatedAnswer c g =
          (checkAnswerCompleteness c, translatedAnswer))
    ∧ (∀ r, checkAnswerCompleteness c < 4/5 → g = some r →
        ¬ finalAnswer.length < (jsTrim r).length →
        enrichmentStage finalAnswer translatedAnswer c g =
          (checkAnswerCompleteness c, translatedAnswer))
    ∧ (∀ r, checkAnswerCompleteness c < 4/5 → g = some r → r ≠ "" →
        finalAnswer.length < (jsTrim r).length →
        enrichmentStage finalAnswer translatedAnswer c g =
          (checkAnswerCompleteness c, cleanFormatting (jsTrim r)))
    ∧ (∀ lang bestMatch confLevel o,
        (singleAnswerPath lang bestMatch confLevel o).answer =
          some (enrichmentStage (singleFinalAnswer bestMatch o)
            (o.translate (singleFinalAnswer bestMatch o)) o.completeness o.enrich).2
        ∧ (singleAnswerPath lang bestMatch confLevel o).completenessScore =
          some (enrichmentStage (singleFinalAnswer bestMatch o)
            (o.translate (singleFinalAnswer bestMatch o)) o.completeness o.enrich).1) := by
  refine ⟨?_, ?_, ?_, ?_, ?_⟩
  · intro h g'
    unfold enrichmentStage
    rw [if_neg (not_lt.mpr h)]
  · rintro h rfl
    unfold enrichmentStage
    rw [if_pos h]
    simp [enrichAnswer]
  · rintro r h rfl hlen
    unfold enrichmentStage
    rw [if_pos h]
    have he : enrichAnswer finalAnswer (some r) = none := by
      simp [enrichAnswer, hlen]
    rw [he]
  · rintro r h rfl hr hlen
    unfold enrichmentStage
    rw [if_pos h]
    have he : enrichAnswer finalAnswer (some r) = some (cleanFormatting (jsTrim r)) := by
      simp [enrichAnswer, hr, hlen]
    rw [he]
  · intro lang bestMatch confLevel o
    exact ⟨rfl, rfl⟩

/-- C9 witness: completeness 0.5 with an enrichment longer than the
five-character answer is accepted. -/
theorem enrichment_gating_witness :
    checkAnswerCompleteness (some (1/2)) < 4/5 ∧
    enrichmentStage "short" "short" (some (1/2)) (some "longer enrichment text") =
      (checkAnswerCompleteness (some (1/2)), cleanFormatting (jsTrim "longer enrichment text")) := by
  have h : checkAnswerCompleteness (some (1/2)) < 4/5 := by
    norm_num [checkAnswerCompleteness]
  exact ⟨h, (enrichment_gating "short" "short" (some (1/2))
    (some "longer enrichment text")).2.2.2.1 "longer enrichment text" h rfl
    (by decide) (by decide)⟩

/-- C8: `buildContextAwareQuery` returns the original query unchanged when
the session has no prior messages, when the generative rewrite fails
(`none`) or returns the empty string, and when the rewrite shares no word
longer than 3 characters with the original query; any changed result is the
trimmed rewrite and passed the shared-word validation. -/
theorem buildContextAwareQuery_fallback (originalQuery : String)
    (session : SessionState) (g : Option String) :
    (session.messages = [] → ∀ g',
      buildContextAwareQuery originalQuery session g' = originalQuery)
    ∧ (g = none ∨ g = some "" →
        buildContextAwareQuery originalQuery session g = originalQuery)
    ∧ (∀ e, g = some e → hasCommonWords originalQuery e = false →
        buildContextAwareQuery originalQuery session g = originalQuery)
    ∧ (buildContextAwareQuery originalQuery session g ≠ originalQuery →
        ∃ e, g = some e ∧ hasCommonWords originalQuery e = true ∧
          buildContextAwareQuery originalQuery session g = jsTrim e) := by
  refine ⟨?_, ?_, ?_, ?_⟩
  · intro h g'
    unfold buildContextAwareQuery
    rw [if_pos (by simp [getRecentContext, h])]
  · rintro (rfl | rfl)
    · unfold buildContextAwareQuery
      split
      · rfl
      · rfl
    · unfold buildContextAwareQuery
      split
      · rfl
      · simp
  · rintro e rfl hcw
    unfold buildContextAwareQuery
    split
    · rfl
    · simp [hcw]
  · intro hne
    unfold buildContextAwareQuery at hne ⊢
    by_cases h0 : (getRecentContext session 3).length = 0
    · rw [if_pos h0] at hne
      exact absurd rfl hne
    · rw [if_neg h0] at hne ⊢
      cases g with
      | none => exact absurd rfl hne
      | some e =>
        by_cases h1 : e ≠ "" ∧ jsTrim e ≠ jsTrim originalQuery
        · by_cases h2 : hasCommonWords originalQuery e = true
          · exact ⟨e, rfl, h2, by simp [h1.1, h1.2, h2]⟩
          · exact absurd (by simp [h1.1, h1.2, h2]) hne
        · exact absurd (by simp [h1]) hne

/-- C8 witness: a rewrite sharing no word longer than 3 characters with the
original query is discarded. -/
theorem buildContextAwareQuery_fallback_witness :
    hasCommonWords "hello world" "different words" = false ∧
    buildContextAwareQuery "hello world" initSession (some "different words") = "hello world" := by
  refine ⟨by decide, ?_⟩
  exact (buildContextAwareQuery_fallback "hello world" initSession
    (some "different words")).2.2.1 "different words" rfl (by decide)

/-! ### Lemmas about the vector mathematics -/

/-- The dot-product loop, run fully in bounds, computes the partial sums. -/
theorem dotLoop_some (va vb : List ℝ) :
    ∀ n, n ≤ va.length → n ≤ vb.length → ∀ s : ℝ,
      (List.range n).foldl
        (fun product i => jsAdd product (jsMul (jsGetNum va i) (jsGetNum vb i))) (some s)
      = some (s + ∑ i ∈ Finset.range n, va.getD i 0 * vb.getD i 0) := by
  intro n
  induction n with
  | zero => intro _ _ s; simp
  | succ n ih =>
    intro hna hnb s
    have hna' : n < va.length := Nat.lt_of_succ_le hna
    have hnb' : n < vb.length := Nat.lt_of_succ_le hnb
    rw [List.range_succ, List.foldl_append,
      ih (Nat.le_of_succ_le hna) (Nat.le_of_succ_le hnb) s]
    have ha : jsGetNum va n = some (va.getD n 0) := by
      unfold jsGetNum
      rw [dif_pos hna', List.get_eq_getElem, List.getD_eq_getElem va 0 hna']
    have hb : jsGetNum vb n = some (vb.getD n 0) := by
      unfold jsGetNum
      rw [dif_pos hnb', List.get_eq_getElem, List.getD_eq_getElem vb 0 hnb']
    simp only [List.foldl_cons, List.foldl_nil, ha, hb, jsMul, jsAdd,
      Finset.sum_range_succ]
    rw [add_assoc]

/-- In-bounds characterisation: when the first vector is no longer than the
second, `dotProduct` is the real dot product over the first's length. -/
theorem dotProduct_eq_dotR (va vb : List ℝ) (h : va.length ≤ vb.length) :
    dotProduct va vb = some (dotR va vb) := by
  unfold dotProduct dotR
  rw [dotLoop_some va vb va.length le_rfl h 0, zero_add]

/-- `NaN` is absorbing through the rest of the dot-product loop. -/
theorem dotLoop_none (va vb : List ℝ) (l : List ℕ) :
    l.foldl (fun product i => jsAdd product (jsMul (jsGetNum va i) (jsGetNum vb i))) none
      = none := by
  induction l with
  | nil => rfl
  | cons x xs ih => simpa using ih

/-- Out-of-bounds: a first vector strictly longer than the second makes the
loop read past the second vector, poisoning the sum to `NaN`. -/
theorem dotProduct_eq_none (va vb : List ℝ) (h : vb.length < va.length) :
    dotProduct va vb = none := by
  unfold dotProduct
  have hsplit : va.length = (vb.length + 1) + (va.length - (vb.length + 1)) := by omega
  rw [hsplit, List.range_add, List.foldl_append, List.range_succ, List.foldl_append,
    dotLoop_some va vb vb.length (by omega) le_rfl 0]
  have hb : jsGetNum vb vb.length = none := by
    unfold jsGetNum
    rw [dif_neg (lt_irrefl _)]
  have hstep :
      jsAdd (some (0 + ∑ i ∈ Finset.range vb.length, va.getD i 0 * vb.getD i 0))
        (jsMul (jsGetNum va vb.length) (jsGetNum vb vb.length)) = none := by
    rw [hb]
    cases jsGetNum va vb.length <;> rfl
  simp only [List.foldl_cons, List.foldl_nil, hstep]
  exact dotLoop_none va vb _

/-- The zero-magnitude guard of `cosineSimilarity`. -/
theorem cosineSimilarity_zero_magnitude (va vb : List ℝ)
    (h : magnitude va = 0 ∨ magnitude vb = 0) :
    cosineSimilarity (some va) (some vb) = some 0 := by
  simp only [cosineSimilarity]
  by_cases hlen : va.length = 0 ∨ vb.length = 0
  · rw [if_pos hlen]
  · rw [if_neg hlen, if_pos h]

/-- The division formula of `cosineSimilarity` whenever the loop stays in
bounds and neither magnitude is zero. -/
theorem cosineSimilarity_formula (va vb : List ℝ) (hle : va.length ≤ vb.length)
    (ha : va ≠ []) (hb : vb ≠ []) (hA : magnitude va ≠ 0) (hB : magnitude vb ≠ 0) :
    cosineSimilarity (some va) (some vb) =
      some (dotR va vb / (magnitude va * magnitude vb)) := by
  simp only [cosineSimilarity]
  rw [if_neg (by simp [List.length_eq_zero, ha, hb]),
    if_neg (by rintro (h | h); exacts [hA h, hB h]),
    dotProduct_eq_dotR va vb hle]
  simp [jsDiv, mul_ne_zero hA hB]

/-- Concrete magnitudes for the witnesses. -/
theorem magnitude_one_zero : magnitude [(1:ℝ), 0] = 1 := by
  have h : sumSq [(1:ℝ), 0] = 1 := by norm_num [sumSq]
  rw [magnitude, h, Real.sqrt_one]

theorem magnitude_single_one : magnitude [(1:ℝ)] = 1 := by
  have h : sumSq [(1:ℝ)] = 1 := by norm_num [sumSq]
  rw [magnitude, h, Real.sqrt_one]

theorem magnitude_zero_zero : magnitude [(0:ℝ), 0] = 0 := by
  have h : sumSq [(0:ℝ), 0] = 0 := by norm_num [sumSq]
  rw [magnitude, h, Real.sqrt_zero]

/-- C5: `cosineSimilarity` returns 0 for a null or empty vector and for a
zero magnitude; for equal-length vectors with nonzero magnitudes it returns
the dot product divided by the product of the magnitudes. -/
theorem cosineSimilarity_spec :
    (∀ vb, cosineSimilarity none vb = some 0)
    ∧ (∀ va, cosineSimilarity va none = some 0)
    ∧ (∀ va vb : List ℝ, va = [] ∨ vb = [] →
        cosineSimilarity (some va) (some vb) = some 0)
    ∧ (∀ va vb : List ℝ, magnitude va = 0 ∨ magnitude vb = 0 →
        cosineSimilarity (some va) (some vb) = some 0)
    ∧ (∀ va vb : List ℝ, va.length = vb.length → va ≠ [] →
        magnitude va ≠ 0 → magnitude vb ≠ 0 →
        cosineSimilarity (some va) (some vb) =
          some (dotR va vb / (magnitude va * magnitude vb))) := by
  refine ⟨fun vb => by cases vb <;> rfl, fun va => by cases va <;> rfl, ?_, ?_, ?_⟩
  · rintro va vb (rfl | rfl) <;> simp [cosineSimilarity]
  · exact cosineSimilarity_zero_magnitude
  · intro va vb hlen ha hA hB
    have hb : vb ≠ [] := by
      intro hbe
      apply ha
      rw [← List.length_eq_zero, hlen, hbe, List.length_nil]
    exact cosineSimilarity_formula va vb (le_of_eq hlen) ha hb hA hB

/-- C5 witness: the general formula evaluated at `[1, 0]` against itself. -/
theorem cosineSimilarity_spec_witness :
    magnitude [(1:ℝ), 0] ≠ 0 ∧
    cosineSimilarity (some [(1:ℝ), 0]) (some [(1:ℝ), 0]) =
      some (dotR [(1:ℝ), 0] [(1:ℝ), 0] / (magnitude [(1:ℝ), 0] * magnitude [(1:ℝ), 0])) := by
  have hne : magnitude [(1:ℝ), 0] ≠ 0 := by rw [magnitude_one_zero]; norm_num
  exact ⟨hne, cosineSimilarity_spec.2.2.2.2 _ _ rfl (by simp) hne hne⟩

/-- C10 counterexample: `[0, 0]` is strictly longer than `[1]`, yet the
result is 0, not `NaN` — the zero-magnitude guard fires before the poisoned
dot product is divided. -/
theorem cosineSimilarity_unequal_cex :
    cosineSimilarity (some [(0:ℝ), 0]) (some [(1:ℝ)]) = some 0 ∧
    (some (0:ℝ) : jsNum) ≠ (none : jsNum) := by
  exact ⟨cosineSimilarity_zero_magnitude _ _ (Or.inl magnitude_zero_zero), by simp⟩

/-- C10 amended: on unequal lengths `cosineSimilarity` is total and never
raises a dimension error; when both magnitudes are nonzero, a strictly
longer first vector reads past the second and yields `NaN` (`none`), and a
strictly shorter first vector yields the dot product truncated at its own
length divided by both full magnitudes; when either magnitude is zero the
guard returns 0 first (so the unconditional NaN/truncation reading of the
claim fails there). -/
theorem cosineSimilarity_unequal_lengths :
    (∀ va vb : List ℝ, vb.length < va.length → vb ≠ [] →
        magnitude va ≠ 0 → magnitude vb ≠ 0 →
        cosineSimilarity (some va) (some vb) = none)
    ∧ (∀ va vb : List ℝ, va.length < vb.length → va ≠ [] →
        magnitude va ≠ 0 → magnitude vb ≠ 0 →
        cosineSimilarity (some va) (some vb) =
          some (dotR va vb / (magnitude va * magnitude vb)))
    ∧ (∀ va vb : List ℝ, magnitude va = 0 ∨ magnitude vb = 0 →
        cosineSimilarity (some va) (some vb) = some 0) := by
  refine ⟨?_, ?_, cosineSimilarity_zero_magnitude⟩
  · intro va vb h hb hA hB
    have ha : va ≠ [] := by
      intro hae
      rw [hae] at h
      exact absurd (Nat.lt_of_lt_of_le h (Nat.zero_le _)) (lt_irrefl _)
    simp only [cosineSimilarity]
    rw [if_neg (by simp [List.length_eq_zero, ha, hb]),
      if_neg (by rintro (hh | hh); exacts [hA hh, hB hh]),
      dotProduct_eq_none va vb h]
    rfl
  · intro va vb h ha hA hB
    have hb : vb ≠ [] := by
      intro hbe
      rw [hbe] at h
      simp at h
    exact cosineSimilarity_formula va vb (le_of_lt h) ha hb hA hB

/-- C10 witness: `[1, 0]` against `[1]` is `NaN`; `[1]` against `[1, 0]`
is the truncated dot product over the magnitudes. -/
theorem cosineSimilarity_unequal_lengths_witness :
    magnitude [(1:ℝ), 0] ≠ 0 ∧ magnitude [(1:ℝ)] ≠ 0 ∧
    cosineSimilarity (some [(1:ℝ), 0]) (some [(1:ℝ)]) = none ∧
    cosineSimilarity (some [(1:ℝ)]) (some [(1:ℝ), 0]) =
      some (dotR [(1:ℝ)] [(1:ℝ), 0] / (magnitude [(1:ℝ)] * magnitude [(1:ℝ), 0])) := by
  have h10 : magnitude [(1:ℝ), 0] ≠ 0 := by rw [magnitude_one_zero]; norm_num
  have h1 : magnitude [(1:ℝ)] ≠ 0 := by rw [magnitude_single_one]; norm_num
  exact ⟨h10, h1,
    cosineSimilarity_unequal_lengths.1 _ _ (by norm_num) (by simp) h10 h1,
    cosineSimilarity_unequal_lengths.2.1 _ _ (by norm_num) (by simp) h1 h10⟩

/-! ### Lemmas about the session model -/

theorem dedupFirstAux_length : ∀ (l seen : List String),
    (dedupFirstAux l seen).length ≤ l.length := by
  intro l
  induction l with
  | nil => intro seen; simp [dedupFirstAux]
  | cons a t ih =>
    intro seen
    unfold dedupFirstAux
    split
    · exact le_trans (ih seen) (by simp)
    · simpa using Nat.succ_le_succ (ih (a :: seen))

theorem dedupFirstAux_nodup : ∀ (l seen : List String),
    (dedupFirstAux l seen).Nodup ∧ ∀ x ∈ dedupFirstAux l seen, x ∉ seen := by
  intro l
  induction l with
  | nil =>
    intro seen
    refine ⟨List.nodup_nil, ?_⟩
    intro x hx
    simp [dedupFirstAux] at hx
  | cons a t ih =>
    intro seen
    unfold dedupFirstAux
    split
    case isTrue h => exact ih seen
    case isFalse h =>
      obtain ⟨hnd, hmem⟩ := ih (a :: seen)
      refine ⟨?_, ?_⟩
      · rw [List.nodup_cons]
        exact ⟨fun hx => (hmem a hx) (List.mem_cons_self a seen), hnd⟩
      · intro x hx
        rcases List.mem_cons.mp hx with rfl | hx'
        · exact h
        · intro hxs
          exact (hmem x hx') (List.mem_cons_of_mem a hxs)

theorem dedupFirstAux_append : ∀ (l1 l2 seen : List String),
    dedupFirstAux l1 seen <+: dedupFirstAux (l1 ++ l2) seen := by
  intro l1
  induction l1 with
  | nil => intro l2 seen; exact List.nil_prefix
  | cons a t ih =>
    intro l2 seen
    simp only [List.cons_append, dedupFirstAux]
    by_cases h : a ∈ seen
    · simp only [if_pos h]
      exact ih l2 seen
    · simp only [if_neg h]
      obtain ⟨r, hr⟩ := ih l2 (a :: seen)
      exact ⟨r, by rw [List.cons_append, hr]; rfl⟩

theorem short_start_take (l₁ l₂ : List String) (n : Nat)
    (h : l₁ <+: l₂) (hn : l₁.length ≤ n) : l₁ <+: l₂.take n := by
  obtain ⟨r, rfl⟩ := h
  rw [List.take_append_eq_append_take, List.take_of_length_le hn]
  exact List.prefix_append _ _

theorem extractKeywords_length_le (t : String) : (extractKeywords t).length ≤ 5 := by
  unfold extractKeywords
  rw [List.length_take]
  exact min_le_left _ _

theorem addMessage_avg (s : SessionState) (m : ChatMsg) :
    (addMessage s m).avgConfidence =
      ((s.messages ++ [m]).map (fun msg => confidenceScores msg.mconfidence)).sum /
        (((s.messages ++ [m]).length : ℚ)) := rfl

theorem addMessage_topics (s : SessionState) (m : ChatMsg) :
    (addMessage s m).recentTopics =
      (dedupFirst (extractKeywords m.mquery ++ s.recentTopics)).take 10 := rfl

theorem foldl_addMessage_messages : ∀ (msgs : List ChatMsg) (s : SessionState),
    (msgs.foldl addMessage s).messages = s.messages ++ msgs := by
  intro msgs
  induction msgs with
  | nil => intro s; simp
  | cons m t ih =>
    intro s
    rw [List.foldl_cons, ih]
    show (addMessage s m).messages ++ t = s.messages ++ (m :: t)
    simp [addMessage]

theorem foldl_addMessage_totalQueries : ∀ (msgs : List ChatMsg) (s : SessionState),
    (msgs.foldl addMessage s).totalQueries = s.totalQueries + msgs.length := by
  intro msgs
  induction msgs with
  | nil => intro s; simp
  | cons m t ih =>
    intro s
    rw [List.foldl_cons, ih]
    show (addMessage s m).totalQueries + t.length = s.totalQueries + (m :: t).length
    simp [addMessage]
    omega

theorem foldl_addMessage_topics_inv : ∀ (msgs : List ChatMsg) (s : SessionState),
    s.recentTopics.Nodup → s.recentTopics.length ≤ 10 →
    (msgs.foldl addMessage s).recentTopics.Nodup ∧
      (msgs.foldl addMessage s).recentTopics.length ≤ 10 := by
  intro msgs
  induction msgs with
  | nil => intro s h1 h2; exact ⟨h1, h2⟩
  | cons m t ih =>
    intro s _ _
    rw [List.foldl_cons]
    apply ih
    · rw [addMessage_topics]
      exact List.Nodup.sublist (List.take_sublist _ _) (dedupFirstAux_nodup _ []).1
    · rw [addMessage_topics, List.length_take]
      exact min_le_left _ _

/-- C7: starting from an empty session, after `N` `addMessage` calls
`totalQueries` is `N`, `avgConfidence` is the mean of the per-message tier
weights (high = 1, medium = 0.6, low = 0.3), and `recentTopics` is a
de-duplicated list of at most 10 keywords beginning with the de-duplicated
keywords extracted from the most recent message's query. -/
theorem addMessage_session_accounting (msgs : List ChatMsg) :
    ((msgs.foldl addMessage initSession).totalQueries = msgs.length)
    ∧ ((msgs.foldl addMessage initSession).avgConfidence =
        (msgs.map (fun m => confidenceScores m.mconfidence)).sum / (msgs.length : ℚ))
    ∧ (msgs.foldl addMessage initSession).recentTopics.Nodup
    ∧ (msgs.foldl addMessage initSession).recentTopics.length ≤ 10
    ∧ (∀ m, msgs.getLast? = some m →
        dedupFirst (extractKeywords m.mquery) <+:
          (msgs.foldl addMessage initSession).recentTopics) := by
  refine ⟨?_, ?_, ?_, ?_, ?_⟩
  · rw [foldl_addMessage_totalQueries msgs initSession]
    simp [initSession]
  · rcases List.eq_nil_or_concat msgs with rfl | ⟨pre, m, rfl⟩
    · simp [initSession]
    · simp only [List.concat_eq_append]
      rw [List.foldl_append]
      simp only [List.foldl_cons, List.foldl_nil]
      rw [addMessage_avg, foldl_addMessage_messages pre initSession]
      simp [initSession]
  · exact (foldl_addMessage_topics_inv msgs initSession (by simp [initSession])
      (by simp [initSession])).1
  · exact (foldl_addMessage_topics_inv msgs initSession (by simp [initSession])
      (by simp [initSession])).2
  · intro m hm
    rcases List.eq_nil_or_concat msgs with rfl | ⟨pre, m', rfl⟩
    · simp at hm
    · simp only [List.concat_eq_append] at hm ⊢
      rw [List.getLast?_concat] at hm
      injection hm with hm'
      subst hm'
      rw [List.foldl_append]
      simp only [List.foldl_cons, List.foldl_nil]
      rw [addMessage_topics]
      apply short_start_take _ _ _ (dedupFirstAux_append _ _ [])
      exact le_trans (dedupFirstAux_length _ [])
        (le_trans (extractKeywords_length_le _) (by norm_num))

/-- C7 witness: two concrete messages. -/
theorem addMessage_session_accounting_witness :
    (([⟨"what is your pricing", "r1", Confidence.high⟩,
       ⟨"contact info please", "r2", Confidence.low⟩] : List ChatMsg).foldl
        addMessage initSession).totalQueries = 2
    ∧ dedupFirst (extractKeywords "contact info please") <+:
        (([⟨"what is your pricing", "r1", Confidence.high⟩,
           ⟨"contact info please", "r2", Confidence.low⟩] : List ChatMsg).foldl
            addMessage initSession).recentTopics := by
  have h := addMessage_session_accounting
    [⟨"what is your pricing", "r1", Confidence.high⟩,
     ⟨"contact info please", "r2", Confidence.low⟩]
  exact ⟨h.1, h.2.2.2.2 ⟨"contact info please", "r2", Confidence.low⟩ rfl⟩

/-! ### Lemmas about the pipeline -/

theorem genEmbedLoop_attempts_le (embedAttempt : Nat → Option (List ℚ)) :
    ∀ (fuel i : Nat), (genEmbedLoop embedAttempt i fuel).attempts ≤ fuel := by
  intro fuel
  induction fuel with
  | zero => intro i; simp [genEmbedLoop]
  | succ fuel ih =>
    intro i
    unfold genEmbedLoop
    cases embedAttempt i with
    | some e => simp
    | none =>
      simp only []
      split
      · simp
      · simpa using ih (i + 1)

theorem genEmbedLoop_delays (embedAttempt : Nat → Option (List ℚ)) :
    ∀ (fuel i : Nat), ∀ d ∈ (genEmbedLoop embedAttempt i fuel).delays, d = RETRY_DELAY_MS := by
  intro fuel
  induction fuel with
  | zero => intro i d hd; simp [genEmbedLoop] at hd
  | succ fuel ih =>
    intro i d hd
    unfold genEmbedLoop at hd
    cases h : embedAttempt i with
    | some e => rw [h] at hd; simp at hd
    | none =>
      rw [h] at hd
      simp only [] at hd
      split at hd
      · simp at hd
      · rcases List.mem_cons.mp hd with rfl | hd'
        · rfl
        · exact ih (i + 1) d hd'

theorem semanticSearch_embed_failed (query clientId sessionId : String)
    (session : SessionState) (corpus : List QADoc) (cosSim : List ℚ → List ℚ → ℚ)
    (o : Oracles) (hq : query ≠ "") (hc : clientId ≠ "") (hs : sessionId ≠ "")
    (hg : o.isGreetingResult = false) (hr : isRestrictedQuery query = false)
    (hct : o.contactIsContact = false) (he : o.queryEmbedding = none) :
    semanticSearch query clientId sessionId session corpus cosSim o =
      { status := 500, message := some "Failed to generate query embedding." } := by
  unfold semanticSearch
  rw [if_neg (by simp [hq, hc, hs]), if_neg (by simp [hg]), if_neg (by simp [hr]),
    if_neg (by simp [hct]), he]

theorem semanticSearch_to_answer (query clientId sessionId : String)
    (session : SessionState) (corpus : List QADoc) (cosSim : List ℚ → List ℚ → ℚ)
    (o : Oracles) (emb : List ℚ) (best : Comparison)
    (hq : query ≠ "") (hc : clientId ≠ "") (hs : sessionId ≠ "")
    (hg : o.isGreetingResult = false) (hr : isRestrictedQuery query = false)
    (hct : o.contactIsContact = false) (he : o.queryEmbedding = some emb)
    (hp : (completedPairs corpus).length ≠ 0)
    (hb : ((sortByScoreDesc (comparisonsOf cosSim emb (completedPairs corpus))).take 5).head?
      = some best)
    (hscore : baseSimilarityThreshold ≤ best.score) :
    semanticSearch query clientId sessionId session corpus cosSim o =
      answerPath o.detectedLanguage
        ((sortByScoreDesc (comparisonsOf cosSim emb (completedPairs corpus))).take 5)
        best (evaluateMatchConfidence best.score).level o := by
  unfold semanticSearch
  rw [if_neg (by simp [hq, hc, hs]), if_neg (by simp [hg]), if_neg (by simp [hr]),
    if_neg (by simp [hct]), he]
  simp only [hp, if_false, hb, hscore, if_true]

theorem semanticSearch_to_suggestions (query clientId sessionId : String)
    (session : SessionState) (corpus : List QADoc) (cosSim : List ℚ → List ℚ → ℚ)
    (o : Oracles) (emb : List ℚ) (best : Comparison)
    (hq : query ≠ "") (hc : clientId ≠ "") (hs : sessionId ≠ "")
    (hg : o.isGreetingResult = false) (hr : isRestrictedQuery query = false)
    (hct : o.contactIsContact = false) (he : o.queryEmbedding = some emb)
    (hp : (completedPairs corpus).length ≠ 0)
    (hb : ((sortByScoreDesc (comparisonsOf cosSim emb (completedPairs corpus))).take 5).head?
      = some best)
    (hscore : ¬ baseSimilarityThreshold ≤ best.score) :
    semanticSearch query clientId sessionId session corpus cosSim o =
      suggestionPath query (refinedQueryOf query session corpus o)
        (filteredKeywordsOf query session corpus o) o.detectedLanguage
        ((sortByScoreDesc (comparisonsOf cosSim emb (completedPairs corpus))).take 5)
        (some best) o := by
  unfold semanticSearch
  rw [if_neg (by simp [hq, hc, hs]), if_neg (by simp [hg]), if_neg (by simp [hr]),
    if_neg (by simp [hct]), he]
  simp only [hp, if_false, hb, hscore]

/-- C6: `generateEmbedding` makes at most 3 attempts with a fixed 1000 ms
delay between attempts, returns null when every attempt fails, and a null
embedding makes `semanticSearch` answer HTTP 500 instead of proceeding. -/
theorem generateEmbedding_retry_spec (embedAttempt : Nat → Option (List ℚ))
    (query clientId sessionId : String) (session : SessionState)
    (corpus : List QADoc) (cosSim : List ℚ → List ℚ → ℚ) (o : Oracles)
    (hq : query ≠ "") (hc : clientId ≠ "") (hs : sessionId ≠ "")
    (hg : o.isGreetingResult = false) (hr : isRestrictedQuery query = false)
    (hct : o.contactIsContact = false)
    (he : o.queryEmbedding = (generateEmbedding embedAttempt).result) :
    ((generateEmbedding embedAttempt).attempts ≤ 3)
    ∧ (∀ d ∈ (generateEmbedding embedAttempt).delays, d = 1000)
    ∧ ((∀ i, i < 3 → embedAttempt i = none) →
        (generateEmbedding embedAttempt).result = none ∧
        (generateEmbedding embedAttempt).attempts = 3 ∧
        (generateEmbedding embedAttempt).delays = [1000, 1000])
    ∧ ((generateEmbedding embedAttempt).result = none →
        (semanticSearch query clientId sessionId session corpus cosSim o).status = 500 ∧
        (semanticSearch query clientId sessionId session corpus cosSim o).message =
          some "Failed to generate query embedding.") := by
  refine ⟨genEmbedLoop_attempts_le embedAttempt MAX_RETRIES 0, ?_, ?_, ?_⟩
  · intro d hd
    exact genEmbedLoop_delays embedAttempt MAX_RETRIES 0 d hd
  · intro hall
    have hrun : generateEmbedding embedAttempt = ⟨none, 3, [1000, 1000]⟩ := by
      simp [generateEmbedding, MAX_RETRIES, genEmbedLoop, RETRY_DELAY_MS,
        hall 0 (by norm_num), hall 1 (by norm_num), hall 2 (by norm_num)]
    rw [hrun]
    exact ⟨rfl, rfl, rfl⟩
  · intro hres
    rw [hres] at he
    rw [semanticSearch_embed_failed query clientId sessionId session corpus cosSim o
      hq hc hs hg hr hct he]
    exact ⟨rfl, rfl⟩

/-- C6 witness: every attempt fails; three attempts are made, two delays
slept, and the caller answers 500. -/
theorem generateEmbedding_retry_spec_witness :
    ((generateEmbedding (fun _ => none)).attempts ≤ 3)
    ∧ ((generateEmbedding (fun _ => none)).result = none ∧
        (generateEmbedding (fun _ => none)).attempts = 3 ∧
        (generateEmbedding (fun _ => none)).delays = [1000, 1000])
    ∧ (semanticSearch "business hours" "client1" "session1" initSession demoCorpus
        (fun _ _ => 1) { oracleStub with queryEmbedding := none }).status = 500 := by
  have h := generateEmbedding_retry_spec (fun _ => none) "business hours" "client1"
    "session1" initSession demoCorpus (fun _ _ => 1)
    { oracleStub with queryEmbedding := none }
    (by decide) (by decide) (by decide) rfl (by decide) rfl (by decide)
  exact ⟨h.1, h.2.2.1 (fun i _ => rfl), (h.2.2.2 (by decide)).1⟩

theorem singleAnswerPath_rtype (lang : String) (b : Comparison) (lvl : String)
    (o : Oracles) : (singleAnswerPath lang b lvl o).rtype = some "answer" := rfl

theorem answerPath_rtype (lang : String) (tm : List Comparison) (b : Comparison)
    (lvl : String) (o : Oracles) :
    (answerPath lang tm b lvl o).rtype = some "answer" ∨
    (answerPath lang tm b lvl o).rtype = some "synthesized_answer" := by
  simp only [answerPath]
  repeat' split
  all_goals first
    | (left; exact singleAnswerPath_rtype _ _ _ _)
    | (right; rfl)

/-- C3: a non-greeting query matching a restricted-topic pattern makes
`semanticSearch` return the fixed refusal with type `restricted` and score
0, identically for every corpus, similarity metric, session and remaining
oracle outcome — no later pipeline stage influences the response. -/
theorem restricted_query_short_circuits (query clientId sessionId : String)
    (session : SessionState) (corpus : List QADoc) (cosSim : List ℚ → List ℚ → ℚ)
    (o : Oracles) (hq : query ≠ "") (hc : clientId ≠ "") (hs : sessionId ≠ "")
    (hg : o.isGreetingResult = false) (hr : isRestrictedQuery query = true) :
    semanticSearch query clientId sessionId session corpus cosSim o =
      { answer := some restrictedRefusalText, score := some 0, rtype := some "restricted" } := by
  unfold semanticSearch
  rw [if_neg (by simp [hq, hc, hs]), if_neg (by simp [hg]), if_pos (by simp [hr])]

/-- C3 witness: "write code for a loop" matches the first restricted
pattern and short-circuits on a non-empty corpus. -/
theorem restricted_query_short_circuits_witness :
    isRestrictedQuery "write code for a loop" = true ∧
    semanticSearch "write code for a loop" "client1" "session1" initSession demoCorpus
      (fun _ _ => 1) oracleStub =
      { answer := some restrictedRefusalText, score := some 0, rtype := some "restricted" } := by
  refine ⟨by decide, ?_⟩
  exact restricted_query_short_circuits "write code for a loop" "client1" "session1"
    initSession demoCorpus (fun _ _ => 1) oracleStub
    (by decide) (by decide) (by decide) rfl (by decide)

/-- C1: once the ranking stage is reached (non-empty corpus, embedded
query), a best-match score exactly equal to the 0.7 threshold takes the
answer path (the gate is `>=`, not `>`), and a best score strictly below
the threshold yields a response of type `suggestions`. -/
theorem semanticSearch_threshold_boundary (query clientId sessionId : String)
    (session : SessionState) (corpus : List QADoc) (cosSim : List ℚ → List ℚ → ℚ)
    (o : Oracles) (emb : List ℚ) (best : Comparison)
    (hq : query ≠ "") (hc : clientId ≠ "") (hs : sessionId ≠ "")
    (hg : o.isGreetingResult = false) (hr : isRestrictedQuery query = false)
    (hct : o.contactIsContact = false) (he : o.queryEmbedding = some emb)
    (hp : (completedPairs corpus).length ≠ 0)
    (hb : ((sortByScoreDesc (comparisonsOf cosSim emb (completedPairs corpus))).take 5).head?
      = some best) :
    (best.score = 7/10 →
      (semanticSearch query clientId sessionId session corpus cosSim o).rtype = some "answer" ∨
      (semanticSearch query clientId sessionId session corpus cosSim o).rtype =
        some "synthesized_answer")
    ∧ (best.score < 7/10 →
      (semanticSearch query clientId sessionId session corpus cosSim o).rtype =
        some "suggestions") := by
  constructor
  · intro h7
    rw [semanticSearch_to_answer query clientId sessionId session corpus cosSim o emb best
      hq hc hs hg hr hct he hp hb (by rw [baseSimilarityThreshold, h7])]
    exact answerPath_rtype _ _ _ _ _
  · intro hlt
    rw [semanticSearch_to_suggestions query clientId sessionId session corpus cosSim o emb best
      hq hc hs hg hr hct he hp hb
      (by rw [baseSimilarityThreshold]; exact not_le.mpr hlt)]
    rfl

/-- C1 witness: a corpus whose single pair scores exactly 0.7 against the
query embedding takes the answer path. -/
theorem semanticSearch_threshold_boundary_witness :
    (semanticSearch "business hours" "client1" "session1" initSession demoCorpus
        (fun _ _ => 7/10) oracleStub).rtype = some "answer" ∨
    (semanticSearch "business hours" "client1" "session1" initSession demoCorpus
        (fun _ _ => 7/10) oracleStub).rtype = some "synthesized_answer" := by
  exact (semanticSearch_threshold_boundary "business hours" "client1" "session1"
    initSession demoCorpus (fun _ _ => 7/10) oracleStub [1]
    ⟨"What are your business hours?", "9 to 5 Mon-Fri", 7/10⟩
    (by decide) (by decide) (by decide) rfl (by decide) rfl rfl (by decide) rfl).1 rfl

theorem singleAnswerPath_confidence (lang : String) (b : Comparison) (lvl : String)
    (o : Oracles) : (singleAnswerPath lang b lvl o).confidence = some lvl := rfl

theorem answerPath_no_intent (lang : String) (tm : List Comparison) (b : Comparison)
    (lvl : String) (o : Oracles) (hpi : parseIntentResult o.intentAnalysis = none) :
    answerPath lang tm b lvl o = singleAnswerPath lang b lvl o := by
  simp [answerPath, hpi]

/-- C2 counterexample: with a best-match score exactly 0.7 the answer path
is taken, yet the emitted confidence label is `low`, not `high` — the label
comes from `evaluateMatchConfidence`'s strict `score > 0.7`, while the
answer gate uses `>=`. -/
theorem confidence_label_at_threshold_cex :
    (semanticSearch "business hours" "client1" "session1" initSession demoCorpus
        (fun _ _ => 7/10) oracleStub).rtype = some "answer"
    ∧ (semanticSearch "business hours" "client1" "session1" initSession demoCorpus
        (fun _ _ => 7/10) oracleStub).confidence = some "low"
    ∧ (semanticSearch "business hours" "client1" "session1" initSession demoCorpus
        (fun _ _ => 7/10) oracleStub).confidence ≠ some "high" := by
  have hrw := semanticSearch_to_answer "business hours" "client1" "session1" initSession
    demoCorpus (fun _ _ => 7/10) oracleStub [1]
    ⟨"What are your business hours?", "9 to 5 Mon-Fri", 7/10⟩
    (by decide) (by decide) (by decide) rfl (by decide) rfl rfl (by decide) rfl (le_refl _)
  have hlev : (evaluateMatchConfidence (7/10)).level = "low" := by
    unfold evaluateMatchConfidence
    rw [if_neg (lt_irrefl _)]
  rw [hrw, answerPath_no_intent _ _ _ _ oracleStub rfl]
  refine ⟨singleAnswerPath_rtype _ _ _ _, ?_, ?_⟩
  · rw [singleAnswerPath_confidence]
    rw [show (⟨"What are your business hours?", "9 to 5 Mon-Fri", 7/10⟩ : Comparison).score
      = 7/10 from rfl, hlev]
  · rw [singleAnswerPath_confidence]
    rw [show (⟨"What are your business hours?", "9 to 5 Mon-Fri", 7/10⟩ : Comparison).score
      = 7/10 from rfl, hlev]
    simp

/-- C2 (amended): the answer-vs-suggestion gate uses `>= 0.7` but the
confidence label uses the strict `> 0.7`: `evaluateMatchConfidence` labels
`high` exactly when the score exceeds 0.7, so a best score of exactly 0.7
takes the answer path and — whenever the intent analysis yields nothing, so
the single-answer tail emits the evaluated label — carries confidence
`low`, not `high`. -/
theorem confidence_label_strict_policy (query clientId sessionId : String)
    (session : SessionState) (corpus : List QADoc) (cosSim : List ℚ → List ℚ → ℚ)
    (o : Oracles) (emb : List ℚ) (best : Comparison)
    (hq : query ≠ "") (hc : clientId ≠ "") (hs : sessionId ≠ "")
    (hg : o.isGreetingResult = false) (hr : isRestrictedQuery query = false)
    (hct : o.contactIsContact = false) (he : o.queryEmbedding = some emb)
    (hp : (completedPairs corpus).length ≠ 0)
    (hb : ((sortByScoreDesc (comparisonsOf cosSim emb (completedPairs corpus))).take 5).head?
      = some best)
    (h7 : best.score = 7/10)
    (hpi : parseIntentResult o.intentAnalysis = none) :
    (∀ s : ℚ, (evaluateMatchConfidence s).level = if 7/10 < s then "high" else "low")
    ∧ (semanticSearch query clientId sessionId session corpus cosSim o).rtype = some "answer"
    ∧ (semanticSearch query clientId sessionId session corpus cosSim o).confidence =
        some "low" := by
  refine ⟨?_, ?_, ?_⟩
  · intro s
    unfold evaluateMatchConfidence
    by_cases h : (7:ℚ)/10 < s
    · rw [if_pos h, if_pos h]
    · rw [if_neg h, if_neg h]
  · rw [semanticSearch_to_answer query clientId sessionId session corpus cosSim o emb best
      hq hc hs hg hr hct he hp hb (by rw [baseSimilarityThreshold, h7]),
      answerPath_no_intent _ _ _ _ _ hpi]
    exact singleAnswerPath_rtype _ _ _ _
  · rw [semanticSearch_to_answer query clientId sessionId session corpus cosSim o emb best
      hq hc hs hg hr hct he hp hb (by rw [baseSimilarityThreshold, h7]),
      answerPath_no_intent _ _ _ _ _ hpi, singleAnswerPath_confidence, h7]
    unfold evaluateMatchConfidence
    rw [if_neg (lt_irrefl _)]

/-- C2 amended-policy witness at concrete inputs. -/
theorem confidence_label_strict_policy_witness :
    (evaluateMatchConfidence (9/10)).level = (if (7:ℚ)/10 < 9/10 then "high" else "low")
    ∧ (semanticSearch "business hours" "client1" "session1" initSession demoCorpus
        (fun _ _ => 7/10) oracleStub).confidence = some "low" := by
  have h := confidence_label_strict_policy "business hours" "client1" "session1"
    initSession demoCorpus (fun _ _ => 7/10) oracleStub [1]
    ⟨"What are your business hours?", "9 to 5 Mon-Fri", 7/10⟩
    (by decide) (by decide) (by decide) rfl (by decide) rfl rfl (by decide) rfl rfl rfl
  exact ⟨h.1 (9/10), h.2.2⟩

theorem formatSuggestionsGo_mem (t : String → String) (lang : String) :
    ∀ (l : List Comparison) (i : Nat) (sg : Suggestion),
      sg ∈ formatSuggestionsGo t lang i l →
      ∃ c ∈ l, sg.originalQuestion = c.question ∧ sg.score = round4 c.score ∧
        sg.relevanceReason = generateRelevanceReason c.score := by
  intro l
  induction l with
  | nil => intro i sg h; simp [formatSuggestionsGo] at h
  | cons c rest ih =>
    intro i sg h
    rw [formatSuggestionsGo] at h
    rcases List.mem_cons.mp h with rfl | h'
    · exact ⟨c, List.mem_cons_self _ _, rfl, rfl, rfl⟩
    · obtain ⟨c', hc', h1, h2, h3⟩ := ih (i + 1) sg h'
      exact ⟨c', List.mem_cons_of_mem _ hc', h1, h2, h3⟩

theorem round4_mono {a b : ℚ} (h : a ≤ b) : round4 a ≤ round4 b := by
  unfold round4
  have h1 : a * 10000 + 1/2 ≤ b * 10000 + 1/2 :=
    add_le_add_right (mul_le_mul_of_nonneg_right h (by norm_num)) _
  have h2 : ((Int.floor (a * 10000 + 1/2) : ℤ) : ℚ) ≤ ((Int.floor (b * 10000 + 1/2) : ℤ) : ℚ) := by
    exact_mod_cast Int.floor_mono h1
  linarith

theorem formatSuggestionsGo_pairwise (t : String → String) (lang : String) :
    ∀ (l : List Comparison) (i : Nat), List.Pairwise scoreGE l →
      List.Pairwise (fun a b : Suggestion => b.score ≤ a.score)
        (formatSuggestionsGo t lang i l) := by
  intro l
  induction l with
  | nil => intro i _; exact List.Pairwise.nil
  | cons c rest ih =>
    intro i h
    rw [List.pairwise_cons] at h
    rw [formatSuggestionsGo]
    refine List.Pairwise.cons ?_ (ih (i + 1) h.2)
    intro sg hsg
    obtain ⟨c', hc', _, h2, _⟩ := formatSuggestionsGo_mem t lang rest (i + 1) sg hsg
    rw [h2]
    exact round4_mono (h.1 c' hc')

theorem formatSuggestionsGo_length (t : String → String) (lang : String) :
    ∀ (l : List Comparison) (i : Nat), (formatSuggestionsGo t lang i l).length = l.length := by
  intro l
  induction l with
  | nil => intro i; rfl
  | cons c rest ih => intro i; rw [formatSuggestionsGo]; simp [ih (i + 1)]

theorem sortByScoreDesc_sorted (l : List Comparison) :
    List.Pairwise scoreGE (sortByScoreDesc l) :=
  List.sorted_insertionSort scoreGE l

theorem sortByScoreDesc_perm (l : List Comparison) : (sortByScoreDesc l).Perm l :=
  List.perm_insertionSort scoreGE l

/-- C4: on the suggestion path the response has type `suggestions` and the
best candidate's score; it carries at most 5 suggestions, ordered by
descending score, each one drawn from the ranked comparisons with its
relevance reason bucketed by that comparison's score (≥ 0.50 closely
related, ≥ 0.40 somewhat related, otherwise potentially relevant). -/
theorem suggestion_path_shape (query clientId sessionId : String)
    (session : SessionState) (corpus : List QADoc) (cosSim : List ℚ → List ℚ → ℚ)
    (o : Oracles) (emb : List ℚ) (best : Comparison)
    (hq : query ≠ "") (hc : clientId ≠ "") (hs : sessionId ≠ "")
    (hg : o.isGreetingResult = false) (hr : isRestrictedQuery query = false)
    (hct : o.contactIsContact = false) (he : o.queryEmbedding = some emb)
    (hp : (completedPairs corpus).length ≠ 0)
    (hb : ((sortByScoreDesc (comparisonsOf cosSim emb (completedPairs corpus))).take 5).head?
      = some best)
    (hlt : best.score < 7/10) :
    (semanticSearch query clientId sessionId session corpus cosSim o).rtype =
      some "suggestions"
    ∧ (semanticSearch query clientId sessionId session corpus cosSim o).score =
      some best.score
    ∧ (semanticSearch query clientId sessionId session corpus cosSim o).confidence =
      some "low"
    ∧ ∃ sugs, (semanticSearch query clientId sessionId session corpus cosSim o).suggestions
        = some sugs
      ∧ sugs.length ≤ 5
      ∧ List.Pairwise (fun a b : Suggestion => b.score ≤ a.score) sugs
      ∧ ∀ sg ∈ sugs, ∃ c ∈ comparisonsOf cosSim emb (completedPairs corpus),
          sg.originalQuestion = c.question ∧ sg.score = round4 c.score ∧
          sg.relevanceReason =
            (if 1/2 ≤ c.score then "Closely related topic"
             else if 2/5 ≤ c.score then "Somewhat related"
             else "Potentially relevant") := by
  rw [semanticSearch_to_suggestions query clientId sessionId session corpus cosSim o emb best
    hq hc hs hg hr hct he hp hb
    (by rw [baseSimilarityThreshold]; exact not_le.mpr hlt)]
  refine ⟨rfl, rfl, rfl,
    formatSuggestions o.translate o.detectedLanguage
      ((sortByScoreDesc (comparisonsOf cosSim emb (completedPairs corpus))).take 5),
    rfl, ?_, ?_, ?_⟩
  · unfold formatSuggestions
    rw [formatSuggestionsGo_length]
    rw [List.length_take]
    exact min_le_left _ _
  · exact formatSuggestionsGo_pairwise o.translate o.detectedLanguage _ 0
      (List.Pairwise.sublist (List.take_sublist _ _) (sortByScoreDesc_sorted _))
  · intro sg hsg
    obtain ⟨c, hc', h1, h2, h3⟩ := formatSuggestionsGo_mem o.translate o.detectedLanguage
      _ 0 sg hsg
    refine ⟨c, ?_, h1, h2, by rw [h3]; rfl⟩
    exact (sortByScoreDesc_perm _).subset ((List.take_sublist _ _).subset hc')

/-- C4 witness: every candidate scores 0, so the suggestion path is taken
with the best score 0. -/
theorem suggestion_path_shape_witness :
    (semanticSearch "business hours" "client1" "session1" initSession demoCorpus
        (fun _ _ => 0) oracleStub).rtype = some "suggestions"
    ∧ (semanticSearch "business hours" "client1" "session1" initSession demoCorpus
        (fun _ _ => 0) oracleStub).score =
      some ((⟨"What are your business hours?", "9 to 5 Mon-Fri", 0⟩ : Comparison).score) := by
  have h := suggestion_path_shape "business hours" "client1" "session1" initSession
    demoCorpus (fun _ _ => 0) oracleStub [1]
    ⟨"What are your business hours?", "9 to 5 Mon-Fri", 0⟩
    (by decide) (by decide) (by decide) rfl (by decide) rfl rfl (by decide) rfl
    (by norm_num)
  exact ⟨h.1, h.2.1⟩
